import Mathlib

/-!
Verification of the move-classification and accuracy-scoring core of the
Scacchi repository (src/src/analysis and src/src/core), shallowly embedded
in Lean 4.  Pure Python functions become Lean functions; the python-chess
board abstraction, which the specification declares an external
collaborator, is modelled as an abstract interface of operations; the
floating-point formula pipeline is embedded over the real numbers.
-/

/-- Piece kinds, mirroring the chess library constants PAWN .. KING. -/
inductive PieceType where
  | pawn
  | knight
  | bishop
  | rook
  | queen
  | king
deriving DecidableEq, Repr

/-- A piece: a color (true = white, as chess.WHITE) and a kind. -/
structure Piece where
  color : Bool
  ptype : PieceType
deriving DecidableEq, Repr

/-- PIECE_VALUES from src/src/config.py (centipawns). -/
def pieceValue : PieceType → Int
  | PieceType.pawn => 100
  | PieceType.knight => 320
  | PieceType.bishop => 330
  | PieceType.rook => 500
  | PieceType.queen => 900
  | PieceType.king => 20000

/-- A move: origin square, destination square, optional promotion kind,
mirroring chess.Move. -/
structure Move where
  fromSquare : Fin 64
  toSquare : Fin 64
  promotion : Option PieceType := none
deriving DecidableEq, Repr

/- Constants from src/src/config.py. -/

def SACRIFICE_MIN_VALUE : Int := 100

def BRILLIANT_MAX_LOSS : Int := 150

def GREAT_MOVE_GAP : Int := 50

def GREAT_MOVE_ADVANTAGE : Int := 100

def GREAT_MOVE_TACTICAL_ADVANTAGE : Int := 150

def GREAT_MOVE_LOSS_THRESHOLD : Int := 30

def CRITICAL_THRESHOLD : Int := 100

def ALTERNATIVE_BAD_THRESHOLD : Int := -100

def CRITICAL_EVAL_THRESHOLD : Int := 700

def MATE_VALUE_BASE : Int := 30000

def MATE_VALUE_DECREMENT : Int := 100

def WINNING_CHANCES_MATE_THRESHOLD : Int := 32000

/-- Model of the Python evaluation dictionaries passed around by the code
(outputs of stockfish get_evaluation / get_top_moves).  Each field models
one dictionary key; for the Centipawn and Mate keys the outer Option is
key presence and the inner Option is a stored None (both occur in the
code), for the type, value and Move keys `none` models an absent key. -/
structure PyEval where
  centipawn : Option (Option Int) := none
  mate : Option (Option Int) := none
  etype : Option String := none
  value : Option Int := none
  moveStr : Option String := none
deriving DecidableEq, Repr

/-- Python falsiness of the dictionary (`if not eval_info`): no keys at all. -/
def PyEval.isEmpty (e : PyEval) : Bool :=
  e.centipawn = none ∧ e.mate = none ∧ e.etype = none ∧ e.value = none ∧
    e.moveStr = none

/-- eval_to_centipawns from src/src/core/stockfish_manager.py. -/
def eval_to_centipawns (e : PyEval) : Int :=
  if e.isEmpty then 0
  else if e.etype = some "cp" then e.value.getD 0
  else if e.etype = some "mate" then
    match e.value with
    | none => 0
    | some v =>
      if v = 0 then 0
      else (MATE_VALUE_BASE - |v| * MATE_VALUE_DECREMENT) * (if v > 0 then 1 else -1)
  else 0

/-- convert_top_move_to_cp from src/src/core/stockfish_manager.py. -/
def convert_top_move_to_cp (e : PyEval) : Int :=
  if e.isEmpty then 0
  else
    match e.centipawn with
    | some cpVal => cpVal.getD 0
    | none =>
      match e.mate with
      | some mateVal =>
        match mateVal with
        | none => 0
        | some n =>
          if n = 0 then 0
          else (MATE_VALUE_BASE - |n| * MATE_VALUE_DECREMENT) * (if n > 0 then 1 else -1)
      | none => eval_to_centipawns e

/-- Abstract interface of the board collaborator.  Modelled from the spec:
the position representation, legal-move generation, attack enumeration and
check/checkmate detection live in the external chess library (spec section
6, Board.legalMoves / Board.apply / Board.isCheck / Board.isCheckmate /
Board.pieceAt and the python-chess attackers, remove_piece_at,
set_piece_at, push and turn operations the analysis code calls); only
their signatures are fixed here.  Copying a board is value-preserving, so
board.copy() is translated as the board value itself.  push is total and
pushOk models whether python-chess push would raise (caught in
danger_levels via try/except). -/
structure Chess where
  Pos : Type
  pieceAt : Pos → Fin 64 → Option Piece
  turn : Pos → Bool
  legalMoves : Pos → List Move
  attackers : Pos → Bool → Fin 64 → List (Fin 64)
  isCheck : Pos → Bool
  isCheckmate : Pos → Bool
  givesCheck : Pos → Move → Bool
  push : Pos → Move → Pos
  pushOk : Pos → Move → Bool
  removePieceAt : Pos → Fin 64 → Pos
  setPieceAt : Pos → Fin 64 → Piece → Pos
  setTurn : Pos → Bool → Pos
  moveUci : Move → String

/-- Fuel for the battery-search loop in get_attacking_moves.  On a
64-square board whose attacker enumerations are duplicate-free the loop
runs at most 128 iterations (each square enters the frontier at most
once), so 256 covers every reachable case. -/
def ATTACK_LOOP_FUEL : Nat := 256

/-- The while-frontier loop of get_attacking_moves
(src/src/analysis/attackers_defenders.py): pop the last frontier square,
skip kings and empty squares, remove the popped attacker from a scratch
copy of the board, and add any newly revealed attackers to both the
accumulated list and the frontier. -/
def attackersLoop (C : Chess) (b : C.Pos) (targetSquare : Fin 64) (color : Bool) :
    Nat → List (Fin 64) → List (Fin 64) → List (Fin 64)
  | 0, allAttackers, _ => allAttackers
  | Nat.succ fuel, allAttackers, frontier =>
    match frontier.getLast? with
    | none => allAttackers
    | some currentAttacker =>
      let rest := frontier.dropLast
      match C.pieceAt b currentAttacker with
      | none => attackersLoop C b targetSquare color fuel allAttackers rest
      | some attackerPiece =>
        if attackerPiece.ptype = PieceType.king then
          attackersLoop C b targetSquare color fuel allAttackers rest
        else
          let tempBoard := C.removePieceAt b currentAttacker
          let newAttackers := C.attackers tempBoard color targetSquare
          let revealed := newAttackers.filter (fun sq => ¬ sq ∈ allAttackers)
          attackersLoop C b targetSquare color fuel (allAttackers ++ revealed)
            (rest ++ revealed)

/-- get_attacking_moves from src/src/analysis/attackers_defenders.py. -/
def get_attacking_moves (C : Chess) (b : C.Pos) (targetSquare : Fin 64)
    (attackingColor : Bool) (transitive : Bool) : List (Fin 64) :=
  let directAttackers := C.attackers b attackingColor targetSquare
  if ¬ transitive then directAttackers
  else attackersLoop C b targetSquare attackingColor ATTACK_LOOP_FUEL
    directAttackers directAttackers

/-- get_defending_moves from src/src/analysis/attackers_defenders.py. -/
def get_defending_moves (C : Chess) (b : C.Pos) (targetSquare : Fin 64)
    (defendingColor : Bool) (transitive : Bool := true) : List (Fin 64) :=
  match C.pieceAt b targetSquare with
  | none => []
  | some piece =>
    let attackers := get_attacking_moves C b targetSquare (!defendingColor) false
    if attackers = [] then
      let tempBoard := C.setPieceAt (C.removePieceAt b targetSquare) targetSquare
        ⟨!piece.color, piece.ptype⟩
      C.attackers tempBoard defendingColor targetSquare
    else
      let step : Option (List (Fin 64)) → Fin 64 → Option (List (Fin 64)) :=
        fun acc attackerSquare =>
          match C.pieceAt b attackerSquare with
          | none => acc
          | some attackerPiece =>
            let tempBoard := C.removePieceAt
              (C.setPieceAt (C.removePieceAt b targetSquare) targetSquare attackerPiece)
              attackerSquare
            let recapturers := get_attacking_moves C tempBoard targetSquare
              defendingColor transitive
            match acc with
            | none => some recapturers
            | some best =>
              if recapturers.length < best.length then some recapturers else acc
      (attackers.foldl step none).getD []

/-- Truthiness-guarded access `opt and p(opt)` used throughout the Python
code: false on an empty Option. -/
def optTest {α : Type} (o : Option α) (p : α → Bool) : Bool :=
  match o with
  | some x => p x
  | none => false

/-- is_piece_safe from src/src/analysis/piece_safety.py. -/
def is_piece_safe (C : Chess) (b : C.Pos) (square : Fin 64)
    (playedMove : Option Move := none) : Bool :=
  match C.pieceAt b square with
  | none => true
  | some piece =>
    let directAttackers := get_attacking_moves C b square (!piece.color) false
    let allAttackers := get_attacking_moves C b square (!piece.color) true
    let defenders := get_defending_moves C b square piece.color
    let favorableExchange : Bool :=
      optTest playedMove (fun pm =>
        optTest (C.pieceAt b pm.toSquare) (fun capturedPiece =>
          piece.ptype = PieceType.rook &&
          pieceValue capturedPiece.ptype = pieceValue PieceType.knight &&
          allAttackers.length = 1 && decide (defenders.length > 0) &&
          decide ((allAttackers.filter (fun a =>
            optTest (C.pieceAt b a)
              (fun ap => pieceValue ap.ptype = pieceValue PieceType.knight))).length > 0)))
    if favorableExchange then true
    else if directAttackers.any (fun attackerSquare =>
        optTest (C.pieceAt b attackerSquare)
          (fun ap => pieceValue ap.ptype < pieceValue piece.ptype)) then false
    else if allAttackers.length ≤ defenders.length then true
    else
      let cheapDefense : Bool :=
        if directAttackers ≠ [] then
          optTest ((directAttackers.filterMap
              (fun sq => (C.pieceAt b sq).map (fun p => pieceValue p.ptype))).min?)
            (fun lowestAttackerValue =>
              decide (pieceValue piece.ptype < lowestAttackerValue) &&
              defenders.any (fun defSq =>
                optTest (C.pieceAt b defSq)
                  (fun dp => pieceValue dp.ptype < lowestAttackerValue)))
        else false
      if cheapDefense then true
      else if defenders.any (fun defSq =>
          optTest (C.pieceAt b defSq) (fun dp => dp.ptype = PieceType.pawn)) then true
      else false

/-- get_unsafe_pieces from src/src/analysis/piece_safety.py. -/
def get_unsafe_pieces (C : Chess) (b : C.Pos) (color : Bool)
    (playedMove : Option Move := none) : List (Fin 64) :=
  let capturedPieceValue : Int :=
    match playedMove with
    | some pm =>
      match C.pieceAt b pm.toSquare with
      | some capturedPiece => pieceValue capturedPiece.ptype
      | none => 0
    | none => 0
  (List.finRange 64).filter (fun square =>
    optTest (C.pieceAt b square) (fun piece =>
      piece.color = color &&
      decide (piece.ptype ≠ PieceType.pawn ∧ piece.ptype ≠ PieceType.king) &&
      decide (pieceValue piece.ptype > capturedPieceValue) &&
      ¬ is_piece_safe C b square playedMove))

/-- move_creates_greater_threat from src/src/analysis/danger_levels.py.  The
final any-comprehension of the source pushes and immediately pops each
legal move of the simulated board (restoring it each time), keeps the
first element of that list, and evaluates is_checkmate on the restored
board, which amounts to: at least one legal move exists and the board is
checkmate. -/
def move_creates_greater_threat (C : Chess) (b : C.Pos) (threatenedSquare : Fin 64)
    (actingMove : Move) : Bool :=
  match C.pieceAt b threatenedSquare with
  | none => false
  | some threatenedPiece =>
    if ¬ C.pushOk b actingMove then false
    else
      let tempBoard := C.push b actingMove
      let actingColor := ! C.turn tempBoard
      let previousUnsafe := get_unsafe_pieces C b actingColor
      let previousRelativeThreats := previousUnsafe.filter (fun sq =>
        decide (sq ≠ threatenedSquare) &&
        optTest (C.pieceAt b sq)
          (fun p => pieceValue p.ptype ≥ pieceValue threatenedPiece.ptype))
      let currentUnsafe := get_unsafe_pieces C tempBoard actingColor (some actingMove)
      let currentRelativeThreats := currentUnsafe.filter (fun sq =>
        decide (sq ≠ threatenedSquare) &&
        optTest (C.pieceAt tempBoard sq)
          (fun p => pieceValue p.ptype ≥ pieceValue threatenedPiece.ptype))
      let newThreats := currentRelativeThreats.filter
        (fun sq => ¬ sq ∈ previousRelativeThreats)
      if newThreats ≠ [] then true
      else if decide (pieceValue threatenedPiece.ptype < pieceValue PieceType.queen) &&
          ((C.legalMoves tempBoard).take 1).any (fun _ => C.isCheckmate tempBoard) then
        true
      else false

/-- move_leaves_greater_threat from src/src/analysis/danger_levels.py (same
reading of the final any-comprehension as in move_creates_greater_threat). -/
def move_leaves_greater_threat (C : Chess) (b : C.Pos) (threatenedSquare : Fin 64)
    (actingMove : Move) : Bool :=
  match C.pieceAt b threatenedSquare with
  | none => false
  | some threatenedPiece =>
    if ¬ C.pushOk b actingMove then false
    else
      let tempBoard := C.push b actingMove
      let actingColor := ! C.turn tempBoard
      let unsafePieces := get_unsafe_pieces C tempBoard actingColor
      let relativeThreats := unsafePieces.filter (fun sq =>
        decide (sq ≠ threatenedSquare) &&
        optTest (C.pieceAt tempBoard sq)
          (fun p => pieceValue p.ptype ≥ pieceValue threatenedPiece.ptype))
      if relativeThreats ≠ [] then true
      else if decide (pieceValue threatenedPiece.ptype < pieceValue PieceType.queen) &&
          ((C.legalMoves tempBoard).take 1).any (fun _ => C.isCheckmate tempBoard) then
        true
      else false

/-- is_move_critical_candidate from src/src/analysis/critical_moves.py
(the if/elif chain flattened into guard conditions). -/
def is_move_critical_candidate (C : Chess) (previousEval currentEval : PyEval)
    (boardBefore : C.Pos) : Bool :=
  if previousEval.etype = some "cp" ∧ previousEval.value.getD 0 ≥ CRITICAL_EVAL_THRESHOLD then
    false
  else if previousEval.etype ≠ some "cp" ∧ currentEval.etype = some "cp" ∧
      currentEval.value.getD 0 ≥ CRITICAL_EVAL_THRESHOLD then
    false
  else if currentEval.etype = some "cp" ∧ currentEval.value.getD 0 < 0 then
    false
  else if C.isCheck boardBefore then
    false
  else
    true

/-- is_piece_trapped from src/src/analysis/piece_trapped.py.  The source
pairs each temp_board.push with a temp_board.pop before the next loop
iteration, so each candidate move is checked on the pushed board and the
iteration state stays the pre-push copy. -/
def is_piece_trapped (C : Chess) (b : C.Pos) (square : Fin 64)
    (dangerLevels : Bool := true) : Bool :=
  match C.pieceAt b square with
  | none => false
  | some piece =>
    if is_piece_safe C b square then false
    else
      let tempBoard := C.setTurn b piece.color
      let pieceMoves := (C.legalMoves tempBoard).filter
        (fun move => move.fromSquare = square)
      let escapes := pieceMoves.any (fun move =>
        if optTest (C.pieceAt tempBoard move.toSquare)
            (fun p => p.ptype = PieceType.king) then false
        else if dangerLevels && move_creates_greater_threat C b square move then false
        else is_piece_safe C (C.push tempBoard move) move.toSquare (some move))
      ¬ escapes

/- Constants from src/src/config.py used by the accuracy calculator. -/

noncomputable def WINNING_CHANCES_MULTIPLIER : ℝ := -0.00368208

noncomputable def VOLATILITY_MAX_WEIGHT : ℝ := 12

noncomputable def VOLATILITY_MIN_WEIGHT : ℝ := 0.5

def VOLATILITY_WINDOW_SIZE : Int := 2

/-- winning_chances_percent from src/src/analysis/accuracy_calculator.py. -/
noncomputable def winning_chances_percent (cpEval : Int) : ℝ :=
  if cpEval ≥ WINNING_CHANCES_MATE_THRESHOLD then 100.0
  else if cpEval ≤ -WINNING_CHANCES_MATE_THRESHOLD then 0.0
  else
    let chances := 2 / (1 + Real.exp (WINNING_CHANCES_MULTIPLIER * cpEval)) - 1
    50 + 50 * max (min chances 1) (-1)

/-- std_dev from src/src/analysis/accuracy_calculator.py (population formula
over the given sample; the minimum volatility weight on an empty input). -/
noncomputable def std_dev (sequence : List ℝ) : ℝ :=
  if sequence = [] then VOLATILITY_MIN_WEIGHT
  else
    let mean := sequence.sum / (sequence.length : ℝ)
    let variance := ((sequence.map (fun x => (x - mean) ^ 2)).sum) / (sequence.length : ℝ)
    Real.sqrt variance

/-- Python slice l[start:stop] for integer indices with start ≥ 0. -/
def pySlice (l : List ℝ) (start stop : Int) : List ℝ :=
  (l.drop start.toNat).take (stop - start).toNat

/-- Loop body of volatility_weighted_mean building weights[i]
(src/src/analysis/accuracy_calculator.py). -/
noncomputable def volatility_weight (winChances : List ℝ) (isWhite : Bool)
    (i : ℕ) : ℝ :=
  let baseIndex : Int := if isWhite then i * 2 + 1 else i * 2 + 2
  let startIdx : Int := max (baseIndex - VOLATILITY_WINDOW_SIZE) 0
  let endIdx : Int := min (baseIndex + VOLATILITY_WINDOW_SIZE)
    ((winChances.length : Int) - 1)
  let subSeq := pySlice winChances startIdx (endIdx + 1)
  max (min (std_dev subSeq) VOLATILITY_MAX_WEIGHT) VOLATILITY_MIN_WEIGHT

/-- volatility_weighted_mean from src/src/analysis/accuracy_calculator.py. -/
noncomputable def volatility_weighted_mean (accuracies : List ℝ)
    (winChances : List ℝ) (isWhite : Bool) : ℝ :=
  if accuracies = [] then 0
  else
    let weights := (List.range accuracies.length).map
      (volatility_weight winChances isWhite)
    let weightedSum := ((List.range accuracies.length).map
      (fun i => accuracies.getD i 0 * weights.getD i 0)).sum
    let totalWeight := weights.sum
    if totalWeight = 0 then 0 else weightedSum / totalWeight

/-- classification_map of AdvancedMoveClassifier
(src/src/analysis/advanced_move_classifier.py). -/
def classification_map (key : String) : String :=
  if key = "BEST" then "best"
  else if key = "EXCELLENT" then "excellent"
  else if key = "GOOD" then "good"
  else if key = "INACCURACY" then "inaccuracy"
  else if key = "MISTAKE" then "mistake"
  else if key = "BLUNDER" then "blunder"
  else if key = "BRILLIANT" then "brilliant"
  else if key = "CRITICAL" then "great"
  else if key = "FORCED" then "forced"
  else if key = "THEORY" then "theory"
  else ""

/-- AdvancedMoveClassifier._is_sacrifice_move
(src/src/analysis/advanced_move_classifier.py). -/
def _is_sacrifice_move (C : Chess) (b : C.Pos) (move : Move) : Bool :=
  match C.pieceAt b move.fromSquare with
  | none => false
  | some movedPiece =>
    if movedPiece.ptype = PieceType.king then false
    else
      let capturedPiece := C.pieceAt b move.toSquare
      let tempBoard := C.push b move
      let opponentColor := ! C.turn b
      let opponentAttackers := C.attackers tempBoard opponentColor move.toSquare
      if opponentAttackers = [] then false
      else
        let movedValue := pieceValue movedPiece.ptype
        let capturedValue := match capturedPiece with
          | some cp => pieceValue cp.ptype
          | none => 0
        let minAttackerValue := (opponentAttackers.filterMap
          (fun sq => (C.pieceAt tempBoard sq).map (fun p => pieceValue p.ptype))).min?
        match minAttackerValue with
        | none => false
        | some minVal =>
          if minVal < movedValue then
            decide (movedValue - capturedValue - minVal ≥ SACRIFICE_MIN_VALUE)
          else false

/-- AdvancedMoveClassifier._consider_brilliant_classification.  The source
checks convert_top_move_to_cp results against None; the embedded converter
always returns an integer, so that dead guard is dropped. -/
def _consider_brilliant_classification (C : Chess) (boardBefore : C.Pos)
    (move : Move) (bestMoveEval currentEval : PyEval) : Bool :=
  if bestMoveEval.isEmpty || currentEval.isEmpty then false
  else if ¬ _is_sacrifice_move C boardBefore move then false
  else
    let turn := C.turn boardBefore
    let bestEvalCp := convert_top_move_to_cp bestMoveEval
    let currentEvalCp := convert_top_move_to_cp currentEval
    let loss := if turn then bestEvalCp - currentEvalCp else currentEvalCp - bestEvalCp
    let subjectiveAdvantage := if turn then currentEvalCp else -currentEvalCp
    decide (loss ≤ BRILLIANT_MAX_LOSS ∧ subjectiveAdvantage ≥ 0)

/-- AdvancedMoveClassifier._consider_great_classification (same dead
None-guard dropped).  A tactical near-best move returns its advantage test
directly, short-circuiting the bad-alternatives case, exactly as the
source return does. -/
def _consider_great_classification (C : Chess) (boardBefore : C.Pos) (move : Move)
    (bestMoveEval currentEval : PyEval) (secondBestEval : Option PyEval) : Bool :=
  match secondBestEval with
  | none => false
  | some secondBest =>
    if bestMoveEval.isEmpty || secondBest.isEmpty then false
    else
      let turn := C.turn boardBefore
      let bestEvalCp := convert_top_move_to_cp bestMoveEval
      let currentEvalCp := convert_top_move_to_cp currentEval
      let secondBestCp := convert_top_move_to_cp secondBest
      let loss := if turn then bestEvalCp - currentEvalCp else currentEvalCp - bestEvalCp
      let subjectiveAdvantage := if turn then currentEvalCp else -currentEvalCp
      let bestMoveUci := bestMoveEval.moveStr.getD ""
      let badAlternatives : Bool :=
        decide (subjectiveAdvantage ≥ 0 ∧ subjectiveAdvantage < 100 ∧
          (if turn then secondBestCp else -secondBestCp) < ALTERNATIVE_BAD_THRESHOLD)
      if C.moveUci move = bestMoveUci then
        let alternativeGap := if turn then bestEvalCp - secondBestCp
          else secondBestCp - bestEvalCp
        if decide (alternativeGap ≥ GREAT_MOVE_GAP ∧
            subjectiveAdvantage ≥ GREAT_MOVE_ADVANTAGE) then true
        else badAlternatives
      else if loss ≤ GREAT_MOVE_LOSS_THRESHOLD then
        if (C.pieceAt boardBefore move.toSquare).isSome || C.givesCheck boardBefore move ||
            _is_sacrifice_move C boardBefore move then
          decide (subjectiveAdvantage ≥ GREAT_MOVE_TACTICAL_ADVANTAGE)
        else badAlternatives
      else badAlternatives

/-- AdvancedMoveClassifier._consider_critical_classification. -/
def _consider_critical_classification (C : Chess) (prevEval : PyEval)
    (secondBestEval : Option PyEval) (boardBefore : C.Pos) : Bool :=
  match secondBestEval with
  | none => false
  | some secondBest =>
    if secondBest.isEmpty then false
    else if ¬ is_move_critical_candidate C prevEval prevEval boardBefore then false
    else
      let bestEvalCp := convert_top_move_to_cp prevEval
      let secondBestCp := convert_top_move_to_cp secondBest
      let advantageLoss := if C.turn boardBefore then bestEvalCp - secondBestCp
        else secondBestCp - bestEvalCp
      decide (advantageLoss > CRITICAL_THRESHOLD)

/-- AdvancedMoveClassifier._point_loss_classify.  Returns the uppercase
classification key, as the source does. -/
noncomputable def _point_loss_classify (bestEvalCp currentEvalCp : Int)
    (turn : Bool) : String :=
  let winChanceAfterBest := winning_chances_percent bestEvalCp
  let winChanceAfterPlayed := winning_chances_percent currentEvalCp
  let rawLoss := if turn then winChanceAfterBest - winChanceAfterPlayed
    else winChanceAfterPlayed - winChanceAfterBest
  let loss := max 0 rawLoss
  if loss ≤ 1 then "BEST"
  else if loss ≤ 5 then "EXCELLENT"
  else if loss ≤ 10 then "GOOD"
  else if loss ≤ 20 then "INACCURACY"
  else if loss ≤ 30 then "MISTAKE"
  else "BLUNDER"

/-- AdvancedMoveClassifier.classify_move
(src/src/analysis/advanced_move_classifier.py).  The analyzer argument
models self.analyzer: set_fen_position followed by get_evaluation is the
application of the oracle to the post-move position.  A non-empty
opening_name string is truthy in Python. -/
noncomputable def classify_move (C : Chess) (analyzer : C.Pos → PyEval)
    (boardBefore : C.Pos) (move : Move) (topMoves : List PyEval)
    (openingName : Option String := none) : String :=
  let turn := C.turn boardBefore
  if (C.legalMoves boardBefore).length ≤ 1 then classification_map "FORCED"
  else if openingName.getD "" ≠ "" then classification_map "THEORY"
  else
    let boardAfter := C.push boardBefore move
    if C.isCheckmate boardAfter then classification_map "BEST"
    else
      let bestMoveEval := topMoves.headD {}
      let secondBestEval := topMoves[1]?
      let currentEval := analyzer boardAfter
      let bestEvalCp := convert_top_move_to_cp bestMoveEval
      let currentEvalCp := convert_top_move_to_cp currentEval
      let bestMoveUci := bestMoveEval.moveStr.getD ""
      let topMovePlayed := C.moveUci move = bestMoveUci
      let classification := if topMovePlayed then classification_map "BEST"
        else _point_loss_classify bestEvalCp currentEvalCp turn
      if _consider_brilliant_classification C boardBefore move bestMoveEval currentEval then
        classification_map "BRILLIANT"
      else if _consider_great_classification C boardBefore move bestMoveEval currentEval
          secondBestEval then
        classification_map "CRITICAL"
      else if topMovePlayed &&
          _consider_critical_classification C bestMoveEval secondBestEval boardBefore then
        classification_map "CRITICAL"
      else classification

/-- Helper: the mate branch of convert_top_move_to_cp in closed form. -/
theorem convert_mate_eq (e : PyEval) (n : Int) (h1 : e.centipawn = none)
    (h2 : e.mate = some (some n)) (h3 : n ≠ 0) :
    convert_top_move_to_cp e =
      (MATE_VALUE_BASE - |n| * MATE_VALUE_DECREMENT) * (if n > 0 then 1 else -1) := by
  have hne : e.isEmpty = false := by
    simp [PyEval.isEmpty, h2]
  simp [convert_top_move_to_cp, hne, h1, h2, h3]

/-- A trivial concrete board collaborator over a one-state position type. -/
def trivialChess : Chess where
  Pos := Unit
  pieceAt := fun _ _ => none
  turn := fun _ => true
  legalMoves := fun _ => []
  attackers := fun _ _ _ => []
  isCheck := fun _ => false
  isCheckmate := fun _ => false
  givesCheck := fun _ _ => false
  push := fun p _ => p
  pushOk := fun _ _ => true
  removePieceAt := fun p _ => p
  setPieceAt := fun p _ _ => p
  setTurn := fun p _ => p
  moveUci := fun _ => ""

/-- Sample move used by concrete scenarios. -/
def mv01 : Move := ⟨0, 1, none⟩

/-- Second sample move used by concrete scenarios. -/
def mv23 : Move := ⟨2, 3, none⟩

/-- C10: convert_top_move_to_cp maps a Mate-only evaluation with nonzero n
to (30000 - 100 * abs n) * sign n, returns 0 on an empty dictionary and on
None/zero Centipawn or Mate fields, and for mate distances of magnitude 1
to 299 the converted score has magnitude at most 29900, strictly below the
32000 saturation threshold of winning_chances_percent. -/
theorem C10_convert_thm :
    (∀ (e : PyEval) (n : Int), e.centipawn = none → e.mate = some (some n) → n ≠ 0 →
      convert_top_move_to_cp e = (30000 - 100 * |n|) * (if 0 < n then 1 else -1))
    ∧ (∀ e : PyEval, e.isEmpty = true → convert_top_move_to_cp e = 0)
    ∧ (∀ e : PyEval, e.centipawn = some none → convert_top_move_to_cp e = 0)
    ∧ (∀ e : PyEval, e.centipawn = none → e.mate = some none →
        convert_top_move_to_cp e = 0)
    ∧ (∀ e : PyEval, e.centipawn = none → e.mate = some (some 0) →
        convert_top_move_to_cp e = 0)
    ∧ (∀ (e : PyEval) (n : Int), e.centipawn = none → e.mate = some (some n) →
        1 ≤ |n| → |n| ≤ 299 → |convert_top_move_to_cp e| ≤ 29900)
    ∧ (29900 : Int) < WINNING_CHANCES_MATE_THRESHOLD := by
  refine ⟨?_, ?_, ?_, ?_, ?_, ?_, ?_⟩
  · intro e n h1 h2 h3
    rw [convert_mate_eq e n h1 h2 h3]
    have : MATE_VALUE_BASE - |n| * MATE_VALUE_DECREMENT = 30000 - 100 * |n| := by
      simp [MATE_VALUE_BASE, MATE_VALUE_DECREMENT]; ring
    rw [this]
  · intro e he
    simp [convert_top_move_to_cp, he]
  · intro e he
    by_cases hempty : e.isEmpty
    · simp [convert_top_move_to_cp, hempty]
    · simp [convert_top_move_to_cp, hempty, he]
  · intro e h1 h2
    by_cases hempty : e.isEmpty
    · simp [convert_top_move_to_cp, hempty]
    · simp [convert_top_move_to_cp, hempty, h1, h2]
  · intro e h1 h2
    by_cases hempty : e.isEmpty
    · simp [convert_top_move_to_cp, hempty]
    · simp [convert_top_move_to_cp, hempty, h1, h2]
  · intro e n h1 h2 hlo hhi
    have h3 : n ≠ 0 := by
      intro h
      rw [h] at hlo
      simp at hlo
    rw [convert_mate_eq e n h1 h2 h3]
    have hbase : MATE_VALUE_BASE = (30000 : Int) := rfl
    have hdec : MATE_VALUE_DECREMENT = (100 : Int) := rfl
    rw [hbase, hdec]
    by_cases hpos : n > 0
    · rw [if_pos hpos, mul_one, abs_of_nonneg (by omega)]
      omega
    · rw [if_neg hpos, mul_neg_one, abs_neg, abs_of_nonneg (by omega)]
      omega
  · decide

/-- Concrete Mate evaluation used as the C10 witness input. -/
def evalMate3 : PyEval := { mate := some (some 3) }

/-- Witness for C10 at the concrete input Mate = 3. -/
theorem C10_convert_witness :
    convert_top_move_to_cp evalMate3 = (30000 - 100 * |(3 : Int)|) * (if (0:Int) < 3 then 1 else -1)
    ∧ |convert_top_move_to_cp evalMate3| ≤ 29900 :=
  ⟨C10_convert_thm.1 evalMate3 3 rfl rfl (by decide),
   C10_convert_thm.2.2.2.2.2.1 evalMate3 3 rfl rfl (by decide) (by decide)⟩

/-- C2: a pre-move position with at most one legal move is always
classified forced, whatever the top-moves list, the analyzer output and
the opening-name signal. -/
theorem C2_forced_thm (C : Chess) (analyzer : C.Pos → PyEval) (b : C.Pos)
    (move : Move) (topMoves : List PyEval) (openingName : Option String)
    (h : (C.legalMoves b).length ≤ 1) :
    classify_move C analyzer b move topMoves openingName = "forced" := by
  simp only [classify_move, if_pos h]
  rfl

/-- Witness for C2 on the trivial collaborator (zero legal moves). -/
theorem C2_forced_witness :
    classify_move trivialChess (fun _ => {}) () mv01 [] none = "forced" :=
  C2_forced_thm trivialChess (fun _ => {}) () mv01 [] none (by decide)

/-- Collaborator with a single-state progression: the pre-move position
has exactly one legal move and pushing any move reaches a checkmated
position. -/
def forcedMateChess : Chess where
  Pos := Bool
  pieceAt := fun _ _ => none
  turn := fun _ => true
  legalMoves := fun p => if p then [] else [mv01]
  attackers := fun _ _ _ => []
  isCheck := fun p => p
  isCheckmate := fun p => p
  givesCheck := fun _ _ => false
  push := fun _ _ => true
  pushOk := fun _ _ => true
  removePieceAt := fun p _ => p
  setPieceAt := fun p _ _ => p
  setTurn := fun p _ => p
  moveUci := fun _ => ""

/-- Collaborator where the pre-move position has two legal moves and
pushing any move reaches a checkmated position; used with an opening-name
signal. -/
def theoryMateChess : Chess where
  Pos := Bool
  pieceAt := fun _ _ => none
  turn := fun _ => true
  legalMoves := fun p => if p then [] else [mv01, mv23]
  attackers := fun _ _ _ => []
  isCheck := fun p => p
  isCheckmate := fun p => p
  givesCheck := fun _ _ => false
  push := fun _ _ => true
  pushOk := fun _ _ => true
  removePieceAt := fun p _ => p
  setPieceAt := fun p _ _ => p
  setTurn := fun p _ => p
  moveUci := fun _ => ""

/-- Counterexample to C1 as stated: a checkmating move is not classified
best for every number of legal moves and every opening-name signal.  With
one legal move the forced rule fires first; with an opening name supplied
the theory rule fires first. -/
theorem C1_counterexample :
    (forcedMateChess.isCheckmate (forcedMateChess.push false mv01) = true
      ∧ classify_move forcedMateChess (fun _ => {}) false mv01 [] none = "forced"
      ∧ classify_move forcedMateChess (fun _ => {}) false mv01 [] none ≠ "best")
    ∧ (theoryMateChess.isCheckmate (theoryMateChess.push false mv01) = true
      ∧ classify_move theoryMateChess (fun _ => {}) false mv01 [] (some "Italian Game")
          = "theory"
      ∧ classify_move theoryMateChess (fun _ => {}) false mv01 [] (some "Italian Game")
          ≠ "best") := by
  refine ⟨⟨rfl, ?_, ?_⟩, ⟨rfl, ?_, ?_⟩⟩
  · simp only [classify_move]
    rw [if_pos (by decide)]
    rfl
  · simp only [classify_move]
    rw [if_pos (by decide)]
    decide
  · simp only [classify_move]
    rfl
  · simp only [classify_move]
    decide

/-- C1 amended: a checkmating move is classified best provided the
pre-move position has at least two legal moves and no non-empty
opening-name signal is supplied (otherwise the forced and theory rules
take precedence, in that order). -/
theorem C1_amended_thm (C : Chess) (analyzer : C.Pos → PyEval) (b : C.Pos)
    (move : Move) (topMoves : List PyEval) (openingName : Option String)
    (hLegal : 2 ≤ (C.legalMoves b).length) (hOpen : openingName.getD "" = "")
    (hMate : C.isCheckmate (C.push b move) = true) :
    classify_move C analyzer b move topMoves openingName = "best" := by
  simp only [classify_move]
  rw [if_neg (by omega), if_neg (by simp [hOpen]), if_pos hMate]
  rfl

/-- Witness for the amended C1 on the two-legal-move mate collaborator. -/
theorem C1_amended_witness :
    classify_move theoryMateChess (fun _ => {}) false mv01 [] none = "best" :=
  C1_amended_thm theoryMateChess (fun _ => {}) false mv01 [] none (by decide) rfl rfl

/-- The candidacy filter as the claim words it: candidate=false when
either evaluation is a centipawn score at or above the threshold, when the
current evaluation is a negative centipawn score, or when the position was
already in check; candidate=true otherwise. -/
def isCandidateClaim (C : Chess) (previousEval currentEval : PyEval)
    (boardBefore : C.Pos) : Bool :=
  if (previousEval.etype = some "cp" ∧ previousEval.value.getD 0 ≥ CRITICAL_EVAL_THRESHOLD)
      ∨ (currentEval.etype = some "cp" ∧ currentEval.value.getD 0 ≥ CRITICAL_EVAL_THRESHOLD) then
    false
  else if currentEval.etype = some "cp" ∧ currentEval.value.getD 0 < 0 then false
  else if C.isCheck boardBefore then false
  else true

/-- Previous evaluation of the C6 counterexample: centipawn 0. -/
def prevEvalC6 : PyEval := { etype := some "cp", value := some 0 }

/-- Current evaluation of the C6 counterexample: centipawn 800. -/
def currEvalC6 : PyEval := { etype := some "cp", value := some 800 }

/-- Counterexample to C6 as stated: with a previous centipawn evaluation
below the threshold and a current centipawn evaluation of 800 at or above
it, the code still answers true, because the current-evaluation threshold
test sits in an elif branch that is skipped whenever the previous
evaluation is centipawn-typed. -/
theorem C6_counterexample :
    is_move_critical_candidate trivialChess prevEvalC6 currEvalC6 () = true
    ∧ isCandidateClaim trivialChess prevEvalC6 currEvalC6 () = false := by
  constructor
  · decide
  · decide

/-- C6 amended: is_move_critical_candidate returns false exactly when the
previous evaluation is a centipawn score at or above the threshold, or the
previous evaluation is not centipawn-typed and the current one is a
centipawn score at or above the threshold, or the current evaluation is a
negative centipawn score, or the position was already in check; it returns
true in all other cases. -/
theorem C6_amended_thm (C : Chess) (previousEval currentEval : PyEval)
    (boardBefore : C.Pos) :
    is_move_critical_candidate C previousEval currentEval boardBefore = false ↔
      ((previousEval.etype = some "cp" ∧
          previousEval.value.getD 0 ≥ CRITICAL_EVAL_THRESHOLD)
        ∨ (previousEval.etype ≠ some "cp" ∧ currentEval.etype = some "cp" ∧
            currentEval.value.getD 0 ≥ CRITICAL_EVAL_THRESHOLD)
        ∨ (currentEval.etype = some "cp" ∧ currentEval.value.getD 0 < 0)
        ∨ C.isCheck boardBefore = true) := by
  simp only [is_move_critical_candidate]
  split_ifs with h1 h2 h3 h4 <;> simp_all

/-- Helper: winning_chances_percent lies within the unit percentage range. -/
theorem winning_chances_bounds (cp : Int) :
    0 ≤ winning_chances_percent cp ∧ winning_chances_percent cp ≤ 100 := by
  unfold winning_chances_percent
  split_ifs with h1 h2
  · norm_num
  · norm_num
  · have hle : max (min (2 / (1 + Real.exp (WINNING_CHANCES_MULTIPLIER * cp)) - 1) 1) (-1) ≤ 1 :=
      max_le (min_le_right _ _) (by norm_num)
    have hge : (-1 : ℝ) ≤
        max (min (2 / (1 + Real.exp (WINNING_CHANCES_MULTIPLIER * cp)) - 1) 1) (-1) :=
      le_max_right _ _
    constructor
    · nlinarith
    · nlinarith

/-- Helper: winning_chances_percent is monotone in the centipawn score. -/
theorem winning_chances_mono (a b : Int) (hab : a ≤ b) :
    winning_chances_percent a ≤ winning_chances_percent b := by
  by_cases hb1 : b ≥ WINNING_CHANCES_MATE_THRESHOLD
  · have : winning_chances_percent b = 100 := by
      unfold winning_chances_percent
      rw [if_pos hb1]
      norm_num
    rw [this]
    exact le_trans (winning_chances_bounds a).2 (by norm_num)
  · by_cases ha2 : a ≤ -WINNING_CHANCES_MATE_THRESHOLD
    · have : winning_chances_percent a = 0 := by
        unfold winning_chances_percent
        have hna : ¬ a ≥ WINNING_CHANCES_MATE_THRESHOLD := by
          simp only [WINNING_CHANCES_MATE_THRESHOLD] at *
          omega
        rw [if_neg hna, if_pos ha2]
        norm_num
      rw [this]
      exact (winning_chances_bounds b).1
    · have ha1 : ¬ a ≥ WINNING_CHANCES_MATE_THRESHOLD := by
        simp only [WINNING_CHANCES_MATE_THRESHOLD] at *
        omega
      have hb2 : ¬ b ≤ -WINNING_CHANCES_MATE_THRESHOLD := by
        simp only [WINNING_CHANCES_MATE_THRESHOLD] at *
        omega
      unfold winning_chances_percent
      rw [if_neg ha1, if_neg ha2, if_neg hb1, if_neg hb2]
      have hM : WINNING_CHANCES_MULTIPLIER < 0 := by
        norm_num [WINNING_CHANCES_MULTIPLIER]
      have hcast : (a : ℝ) ≤ (b : ℝ) := by exact_mod_cast hab
      have hmul : WINNING_CHANCES_MULTIPLIER * b ≤ WINNING_CHANCES_MULTIPLIER * a := by
        nlinarith
      have hexp : Real.exp (WINNING_CHANCES_MULTIPLIER * b) ≤
          Real.exp (WINNING_CHANCES_MULTIPLIER * a) := Real.exp_le_exp.mpr hmul
      have hposb : (0 : ℝ) < 1 + Real.exp (WINNING_CHANCES_MULTIPLIER * b) := by positivity
      have hdiv : 2 / (1 + Real.exp (WINNING_CHANCES_MULTIPLIER * a)) ≤
          2 / (1 + Real.exp (WINNING_CHANCES_MULTIPLIER * b)) := by
        gcongr
      have hclamp :
          max (min (2 / (1 + Real.exp (WINNING_CHANCES_MULTIPLIER * a)) - 1) 1) (-1) ≤
          max (min (2 / (1 + Real.exp (WINNING_CHANCES_MULTIPLIER * b)) - 1) 1) (-1) :=
        max_le_max (min_le_min (by linarith) le_rfl) le_rfl
      simp only []
      linarith

/-- C3: winning_chances_percent saturates to 100 at or above the mate
threshold and to 0 at or below its negation, equals the clamped logistic
formula strictly between them, maps 0 to 50, stays within the range 0 to
100, and is monotonically non-decreasing. -/
theorem C3_winning_chances_thm :
    (∀ cp : Int, cp ≥ WINNING_CHANCES_MATE_THRESHOLD → winning_chances_percent cp = 100)
    ∧ (∀ cp : Int, cp ≤ -WINNING_CHANCES_MATE_THRESHOLD → winning_chances_percent cp = 0)
    ∧ (∀ cp : Int, -32000 < cp → cp < 32000 →
        winning_chances_percent cp =
          50 + 50 * max (min (2 / (1 + Real.exp (-0.00368208 * (cp : ℝ))) - 1) 1) (-1))
    ∧ winning_chances_percent 0 = 50
    ∧ (∀ cp : Int, 0 ≤ winning_chances_percent cp ∧ winning_chances_percent cp ≤ 100)
    ∧ (∀ a b : Int, a ≤ b → winning_chances_percent a ≤ winning_chances_percent b) := by
  refine ⟨?_, ?_, ?_, ?_, winning_chances_bounds, winning_chances_mono⟩
  · intro cp h
    unfold winning_chances_percent
    rw [if_pos h]
    norm_num
  · intro cp h
    unfold winning_chances_percent
    have hna : ¬ cp ≥ WINNING_CHANCES_MATE_THRESHOLD := by
      simp only [WINNING_CHANCES_MATE_THRESHOLD] at *
      omega
    rw [if_neg hna, if_pos h]
    norm_num
  · intro cp hlo hhi
    unfold winning_chances_percent
    have hna : ¬ cp ≥ WINNING_CHANCES_MATE_THRESHOLD := by
      simp only [WINNING_CHANCES_MATE_THRESHOLD]
      omega
    have hnb : ¬ cp ≤ -WINNING_CHANCES_MATE_THRESHOLD := by
      simp only [WINNING_CHANCES_MATE_THRESHOLD]
      omega
    rw [if_neg hna, if_neg hnb]
    simp only [WINNING_CHANCES_MULTIPLIER]
  · unfold winning_chances_percent
    rw [if_neg (by decide), if_neg (by decide)]
    simp only [Int.cast_zero, mul_zero, Real.exp_zero]
    norm_num

/-- Witness for C3 at concrete centipawn inputs. -/
theorem C3_winning_chances_witness :
    winning_chances_percent 32000 = 100 ∧ winning_chances_percent (-32000) = 0
    ∧ winning_chances_percent 0 = 50
    ∧ winning_chances_percent 0 ≤ winning_chances_percent 5 :=
  ⟨C3_winning_chances_thm.1 32000 (by decide),
   C3_winning_chances_thm.2.1 (-32000) (by decide),
   C3_winning_chances_thm.2.2.2.1,
   C3_winning_chances_thm.2.2.2.2.2 0 5 (by decide)⟩

/-- Standard deviation of a sample window as the claim words it: square
root of the mean squared deviation of the window entries. -/
noncomputable def sampleStdDev (l : List ℝ) : ℝ :=
  Real.sqrt (((l.map (fun x => (x - l.sum / (l.length : ℝ)) ^ 2)).sum) / (l.length : ℝ))

/-- The i-th weight as the claim words it: the standard deviation of the
window of plus or minus two entries around index 2 i + 1 (White) or
2 i + 2 (Black) of the win-probability sequence, the window clamped to the
sequence bounds and the weight clamped to the interval from 0.5 to 12. -/
noncomputable def volatilityWeightSpec (winChances : List ℝ) (isWhite : Bool)
    (i : ℕ) : ℝ :=
  let baseIndex : Int := if isWhite then 2 * i + 1 else 2 * i + 2
  let lo : Int := max (baseIndex - 2) 0
  let hi : Int := min (baseIndex + 2) ((winChances.length : Int) - 1)
  let window := (winChances.take (hi + 1).toNat).drop lo.toNat
  min (max (sampleStdDev window) 0.5) 12

/-- The volatility-weighted mean as the claim words it: the sum of
accuracy i times weight i divided by the sum of the weights. -/
noncomputable def volatilityWeightedMeanSpec (accuracies winChances : List ℝ)
    (isWhite : Bool) : ℝ :=
  (∑ i ∈ Finset.range accuracies.length,
      accuracies.getD i 0 * volatilityWeightSpec winChances isWhite i) /
  (∑ i ∈ Finset.range accuracies.length, volatilityWeightSpec winChances isWhite i)

/-- Helper: the two clamp orientations agree when the bounds are ordered. -/
theorem clamp_orientations (x lo hi : ℝ) (h : lo ≤ hi) :
    max (min x hi) lo = min (max x lo) hi := by
  simp only [min_def, max_def]
  split_ifs <;> linarith

/-- Helper: a Python slice with nonnegative start, written drop-then-take,
agrees with take-then-drop. -/
theorem pySlice_eq_take_drop (l : List ℝ) (s e : Int) (hs : 0 ≤ s) :
    pySlice l s e = (l.take e.toNat).drop s.toNat := by
  unfold pySlice
  rw [List.drop_take e.toNat s.toNat l]
  have : (e - s).toNat = e.toNat - s.toNat := by omega
  rw [this]

/-- Helper: the code weight and the claim weight coincide. -/
theorem volatility_weight_eq (winChances : List ℝ) (isWhite : Bool) (i : ℕ) :
    volatility_weight winChances isWhite i = volatilityWeightSpec winChances isWhite i := by
  unfold volatility_weight volatilityWeightSpec
  simp only [VOLATILITY_WINDOW_SIZE, VOLATILITY_MAX_WEIGHT, VOLATILITY_MIN_WEIGHT]
  have hbase : (if isWhite then (i : Int) * 2 + 1 else (i : Int) * 2 + 2) =
      (if isWhite then 2 * (i : Int) + 1 else 2 * (i : Int) + 2) := by
    cases isWhite <;> simp <;> ring
  rw [hbase]
  set baseIndex : Int := if isWhite then 2 * (i : Int) + 1 else 2 * (i : Int) + 2 with hb
  have hlo : (0 : Int) ≤ max (baseIndex - 2) 0 := le_max_right _ _
  rw [pySlice_eq_take_drop _ _ _ hlo]
  set window := (winChances.take (min (baseIndex + 2) ((winChances.length : Int) - 1) + 1).toNat).drop
    (max (baseIndex - 2) 0).toNat with hwdef
  by_cases hwin : window = []
  · rw [hwin]
    have h1 : std_dev [] = VOLATILITY_MIN_WEIGHT := by simp [std_dev]
    have h2 : sampleStdDev [] = 0 := by simp [sampleStdDev]
    rw [h1, h2]
    simp only [VOLATILITY_MIN_WEIGHT]
    rw [clamp_orientations _ _ _ (by norm_num)]
    norm_num
  · have h1 : std_dev window = sampleStdDev window := by
      unfold std_dev sampleStdDev
      rw [if_neg hwin]
    rw [h1, clamp_orientations _ _ _ (by norm_num)]

/-- Helper: sums of a function mapped over List.range agree with Finset
range sums. -/
theorem list_range_map_sum (f : ℕ → ℝ) (n : ℕ) :
    ((List.range n).map f).sum = ∑ i ∈ Finset.range n, f i := by
  induction n with
  | zero => simp
  | succ n ih =>
    rw [List.range_succ, List.map_append, List.sum_append, Finset.sum_range_succ, ih]
    simp

/-- Helper: indexing with default into a range-mapped list. -/
theorem range_map_getD (f : ℕ → ℝ) (n i : ℕ) (h : i < n) :
    ((List.range n).map f).getD i 0 = f i := by
  rw [List.getD_eq_getElem?_getD]
  rw [List.getElem?_map, List.getElem?_range h]
  rfl

/-- C8: volatility_weighted_mean weights the i-th accuracy of the given
side by the standard deviation of the window of plus or minus two entries
around index 2 i + 1 (White) or 2 i + 2 (Black) of the win-probability
sequence, clamps the window to the sequence bounds and the weight to the
interval from 0.5 to 12, and returns the weight-normalized sum of the
accuracies. -/
theorem C8_volatility_thm (accuracies winChances : List ℝ) (isWhite : Bool) :
    volatility_weighted_mean accuracies winChances isWhite =
      volatilityWeightedMeanSpec accuracies winChances isWhite := by
  unfold volatility_weighted_mean volatilityWeightedMeanSpec
  by_cases hacc : accuracies = []
  · rw [if_pos hacc, hacc]
    simp
  · rw [if_neg hacc]
    simp only []
    have hnum : ((List.range accuracies.length).map
        (fun i => accuracies.getD i 0 *
          ((List.range accuracies.length).map
            (volatility_weight winChances isWhite)).getD i 0)).sum =
        ∑ i ∈ Finset.range accuracies.length,
          accuracies.getD i 0 * volatilityWeightSpec winChances isWhite i := by
      rw [List.map_eq_map_iff.mpr]
      · exact list_range_map_sum _ _
      · intro i hi
        rw [range_map_getD _ _ _ (List.mem_range.mp hi), volatility_weight_eq]
    have hden : ((List.range accuracies.length).map
        (volatility_weight winChances isWhite)).sum =
        ∑ i ∈ Finset.range accuracies.length,
          volatilityWeightSpec winChances isWhite i := by
      rw [List.map_eq_map_iff.mpr]
      · exact list_range_map_sum _ _
      · intro i hi
        rw [volatility_weight_eq]
    have hpos : 0 < ((List.range accuracies.length).map
        (volatility_weight winChances isWhite)).sum := by
      apply List.sum_pos
      · intro x hx
        rw [List.mem_map] at hx
        obtain ⟨i, _, hxi⟩ := hx
        rw [← hxi]
        have hge : VOLATILITY_MIN_WEIGHT ≤ volatility_weight winChances isWhite i := by
          unfold volatility_weight
          exact le_max_right _ _
        have h0 : (0 : ℝ) < VOLATILITY_MIN_WEIGHT := by
          norm_num [VOLATILITY_MIN_WEIGHT]
        linarith
      · intro h
        apply hacc
        have : accuracies.length = 0 := by
          have hlen := congrArg List.length h
          simpa using hlen
        exact List.length_eq_zero.mp this
    rw [if_neg (ne_of_gt hpos), hnum, hden]

/-- The sacrifice condition as the claim words it: the moved piece is not
a king, it ends the move attacked by at least one opposing piece, the
lowest-valued such attacker is strictly cheaper than the moved piece, and
moved value minus captured value minus cheapest attacker value is at least
100 centipawns. -/
def SacrificeSpec (C : Chess) (b : C.Pos) (m : Move) : Prop :=
  ∃ movedPiece, C.pieceAt b m.fromSquare = some movedPiece ∧
    movedPiece.ptype ≠ PieceType.king ∧
    C.attackers (C.push b m) (!C.turn b) m.toSquare ≠ [] ∧
    ∃ cheapest,
      ((C.attackers (C.push b m) (!C.turn b) m.toSquare).filterMap
        (fun sq => (C.pieceAt (C.push b m) sq).map (fun p => pieceValue p.ptype))).min?
        = some cheapest ∧
      cheapest < pieceValue movedPiece.ptype ∧
      pieceValue movedPiece.ptype -
        (match C.pieceAt b m.toSquare with
          | some capturedPiece => pieceValue capturedPiece.ptype
          | none => 0) - cheapest ≥ 100

/-- Collaborator for the queen-sortie example: a white queen moves from
square 0 to the empty square 1, where its only attacker is the black pawn
on square 2. -/
def queenSacChess : Chess where
  Pos := Bool
  pieceAt := fun p s =>
    if p then
      if s = 1 then some ⟨true, PieceType.queen⟩
      else if s = 2 then some ⟨false, PieceType.pawn⟩
      else none
    else
      if s = 0 then some ⟨true, PieceType.queen⟩
      else if s = 2 then some ⟨false, PieceType.pawn⟩
      else none
  turn := fun p => !p
  legalMoves := fun _ => []
  attackers := fun p c s => if p ∧ c = false ∧ s = 1 then [2] else []
  isCheck := fun _ => false
  isCheckmate := fun _ => false
  givesCheck := fun _ _ => false
  push := fun _ _ => true
  pushOk := fun _ _ => true
  removePieceAt := fun p _ => p
  setPieceAt := fun p _ _ => p
  setTurn := fun p _ => p
  moveUci := fun _ => ""

/-- Collaborator for the knight-trade example: a white knight on square 0
captures the black knight on square 1 and can be recaptured by the black
knight on square 2. -/
def knightTradeChess : Chess where
  Pos := Bool
  pieceAt := fun p s =>
    if p then
      if s = 1 then some ⟨true, PieceType.knight⟩
      else if s = 2 then some ⟨false, PieceType.knight⟩
      else none
    else
      if s = 0 then some ⟨true, PieceType.knight⟩
      else if s = 1 then some ⟨false, PieceType.knight⟩
      else if s = 2 then some ⟨false, PieceType.knight⟩
      else none
  turn := fun p => !p
  legalMoves := fun _ => []
  attackers := fun p c s => if p ∧ c = false ∧ s = 1 then [2] else []
  isCheck := fun _ => false
  isCheckmate := fun _ => false
  givesCheck := fun _ _ => false
  push := fun _ _ => true
  pushOk := fun _ _ => true
  removePieceAt := fun p _ => p
  setPieceAt := fun p _ _ => p
  setTurn := fun p _ => p
  moveUci := fun _ => ""

/-- C7: _is_sacrifice_move holds exactly under the claimed condition; in
particular the unprotected queen sortie into a pawn attack is a sacrifice
and the plain knight trade is not. -/
theorem C7_sacrifice_iff_thm :
    (∀ (C : Chess) (b : C.Pos) (m : Move),
      _is_sacrifice_move C b m = true ↔ SacrificeSpec C b m)
    ∧ _is_sacrifice_move queenSacChess false mv01 = true
    ∧ _is_sacrifice_move knightTradeChess false mv01 = false := by
  refine ⟨?_, by decide, by decide⟩
  intro C b m
  unfold _is_sacrifice_move SacrificeSpec
  cases hmoved : C.pieceAt b m.fromSquare with
  | none => simp
  | some movedPiece =>
    simp only []
    by_cases hk : movedPiece.ptype = PieceType.king
    · rw [if_pos hk]
      simp [hk]
    · rw [if_neg hk]
      by_cases hatk : C.attackers (C.push b m) (!C.turn b) m.toSquare = []
      · rw [if_pos hatk]
        simp [hatk]
      · rw [if_neg hatk]
        cases hmin : ((C.attackers (C.push b m) (!C.turn b) m.toSquare).filterMap
            (fun sq => (C.pieceAt (C.push b m) sq).map (fun p => pieceValue p.ptype))).min? with
        | none =>
          simp [hmin, hk, hatk]
        | some minVal =>
          simp only [hmin]
          by_cases hlt : minVal < pieceValue movedPiece.ptype
          · rw [if_pos hlt]
            simp only [decide_eq_true_eq, SACRIFICE_MIN_VALUE]
            constructor
            · intro hnet
              exact ⟨movedPiece, rfl, hk, hatk, minVal, rfl, hlt, hnet⟩
            · rintro ⟨mp, hmp, -, -, ch, hch, -, hnet⟩
              cases hmp
              cases hch
              exact hnet
          · rw [if_neg hlt]
            refine ⟨fun h => absurd h (by simp), ?_⟩
            rintro ⟨mp, hmp, -, -, ch, hch, hchlt, -⟩
            cases hmp
            cases hch
            exact (hlt hchlt).elim

/-- Decidability of a bounded existential over an Option. -/
instance {α : Type} (o : Option α) (p : α → Prop) [DecidablePred p] :
    Decidable (∃ a ∈ o, p a) :=
  match o with
  | none => isFalse (fun ⟨_, ha, _⟩ => Option.noConfusion ha)
  | some x => decidable_of_iff (p x) (by simp)

/-- Helper: unfolding of the truthiness guard to a bounded existential. -/
theorem optTest_iff {α : Type} (o : Option α) (f : α → Bool) :
    optTest o f = true ↔ ∃ x ∈ o, f x = true := by
  cases o <;> simp [optTest]

/-- Helper: a filtered list has positive length exactly when a member
satisfies the predicate. -/
theorem filter_length_pos_iff {α : Type} (l : List α) (g : α → Bool) :
    0 < (l.filter g).length ↔ ∃ a ∈ l, g a = true := by
  rw [List.length_pos, Ne, List.filter_eq_nil_iff]
  push_neg
  simp

/-- Helper: rule 2 of is_piece_safe in existential form. -/
theorem safe_rule2_eq (C : Chess) (b : C.Pos) (piece : Piece) (pm : Option Move)
    (allA defenders : List (Fin 64)) :
    optTest pm (fun pmv =>
      optTest (C.pieceAt b pmv.toSquare) (fun capturedPiece =>
        piece.ptype = PieceType.rook &&
        pieceValue capturedPiece.ptype = pieceValue PieceType.knight &&
        allA.length = 1 && decide (defenders.length > 0) &&
        decide ((allA.filter (fun a =>
          optTest (C.pieceAt b a)
            (fun ap => pieceValue ap.ptype = pieceValue PieceType.knight))).length > 0)))
    = decide (∃ pmv ∈ pm, ∃ capturedPiece ∈ C.pieceAt b pmv.toSquare,
        piece.ptype = PieceType.rook ∧
        pieceValue capturedPiece.ptype = pieceValue PieceType.knight ∧
        allA.length = 1 ∧ 0 < defenders.length ∧
        ∃ a ∈ allA, ∃ ap ∈ C.pieceAt b a,
          pieceValue ap.ptype = pieceValue PieceType.knight) := by
  rw [Bool.eq_iff_iff]
  simp only [optTest_iff, decide_eq_true_eq, Bool.and_eq_true, gt_iff_lt,
    filter_length_pos_iff]
  constructor
  · rintro ⟨pmv, hpmv, cap, hcap, ⟨⟨⟨h1, h2⟩, h3⟩, h4⟩, a, ha, ap, hap, h5⟩
    exact ⟨pmv, hpmv, cap, hcap, h1, h2, h3, h4, a, ha, ap, hap, h5⟩
  · rintro ⟨pmv, hpmv, cap, hcap, h1, h2, h3, h4, a, ha, ap, hap, h5⟩
    exact ⟨pmv, hpmv, cap, hcap, ⟨⟨⟨h1, h2⟩, h3⟩, h4⟩, a, ha, ap, hap, h5⟩

/-- Helper: rule 3 of is_piece_safe in existential form. -/
theorem safe_rule3_eq (C : Chess) (b : C.Pos) (v : Int) (direct : List (Fin 64)) :
    (direct.any (fun attackerSquare =>
      optTest (C.pieceAt b attackerSquare) (fun ap => pieceValue ap.ptype < v)))
    = decide (∃ a ∈ direct, ∃ ap ∈ C.pieceAt b a, pieceValue ap.ptype < v) := by
  rw [Bool.eq_iff_iff]
  simp [List.any_eq_true, optTest_iff]

/-- Helper: rule 5 of is_piece_safe in existential form. -/
theorem safe_rule5_eq (C : Chess) (b : C.Pos) (pv : Int)
    (direct defenders : List (Fin 64)) :
    (if direct ≠ [] then
      optTest ((direct.filterMap
          (fun sq => (C.pieceAt b sq).map (fun p => pieceValue p.ptype))).min?)
        (fun lowestAttackerValue =>
          decide (pv < lowestAttackerValue) &&
          defenders.any (fun defSq =>
            optTest (C.pieceAt b defSq)
              (fun dp => pieceValue dp.ptype < lowestAttackerValue)))
    else false)
    = decide (∃ lowest ∈ (direct.filterMap
        (fun sq => (C.pieceAt b sq).map (fun p : Piece => pieceValue p.ptype))).min?,
        pv < lowest ∧ ∃ d ∈ defenders, ∃ dp ∈ C.pieceAt b d,
          pieceValue dp.ptype < lowest) := by
  by_cases hd : direct = []
  · subst hd
    simp
  · rw [if_pos hd, Bool.eq_iff_iff]
    simp [optTest_iff, List.any_eq_true]

/-- Helper: rule 6 of is_piece_safe in existential form. -/
theorem safe_rule6_eq (C : Chess) (b : C.Pos) (defenders : List (Fin 64)) :
    (defenders.any (fun defSq =>
      optTest (C.pieceAt b defSq) (fun dp => dp.ptype = PieceType.pawn)))
    = decide (∃ d ∈ defenders, ∃ dp ∈ C.pieceAt b d, dp.ptype = PieceType.pawn) := by
  rw [Bool.eq_iff_iff]
  simp [List.any_eq_true, optTest_iff]

/-- The safety cascade as the claim words it, first matching rule winning:
(1) empty square safe; (2) favorable-exchange override safe; (3) a direct
attacker strictly cheaper than the piece unsafe; (4) transitive attacker
count at most the defender count safe; (5) piece strictly cheaper than the
lowest-valued direct attacker with a defender also strictly cheaper than
that attacker safe; (6) a pawn defender safe; (7) otherwise unsafe. -/
def isSafeRules (C : Chess) (b : C.Pos) (square : Fin 64)
    (playedMove : Option Move) : Bool :=
  match C.pieceAt b square with
  | none => true
  | some piece =>
    let directAttackers := get_attacking_moves C b square (!piece.color) false
    let allAttackers := get_attacking_moves C b square (!piece.color) true
    let defenders := get_defending_moves C b square piece.color
    if decide (∃ pmv ∈ playedMove, ∃ capturedPiece ∈ C.pieceAt b pmv.toSquare,
        piece.ptype = PieceType.rook ∧
        pieceValue capturedPiece.ptype = pieceValue PieceType.knight ∧
        allAttackers.length = 1 ∧ 0 < defenders.length ∧
        ∃ a ∈ allAttackers, ∃ ap ∈ C.pieceAt b a,
          pieceValue ap.ptype = pieceValue PieceType.knight) then true
    else if decide (∃ a ∈ directAttackers, ∃ ap ∈ C.pieceAt b a,
        pieceValue ap.ptype < pieceValue piece.ptype) then false
    else if allAttackers.length ≤ defenders.length then true
    else if decide (∃ lowest ∈ (directAttackers.filterMap
        (fun sq => (C.pieceAt b sq).map (fun p : Piece => pieceValue p.ptype))).min?,
        pieceValue piece.ptype < lowest ∧
        ∃ d ∈ defenders, ∃ dp ∈ C.pieceAt b d,
          pieceValue dp.ptype < lowest) then true
    else if decide (∃ d ∈ defenders, ∃ dp ∈ C.pieceAt b d,
        dp.ptype = PieceType.pawn) then true
    else false

/-- C4: is_piece_safe decides by the first matching rule of the claimed
order, for every board, square and optional played move. -/
theorem C4_is_piece_safe_rules_thm (C : Chess) (b : C.Pos) (square : Fin 64)
    (playedMove : Option Move) :
    is_piece_safe C b square playedMove = isSafeRules C b square playedMove := by
  unfold is_piece_safe isSafeRules
  cases hp : C.pieceAt b square with
  | none => rfl
  | some piece =>
    simp only []
    rw [safe_rule2_eq, safe_rule3_eq, safe_rule5_eq, safe_rule6_eq]

/-- Collaborator for the forced-mate sacrifice scenario of the
danger-level comparator: state 0 is the pre-move position with White to
move holding a rook on square 0 (the threatened piece, worth less than a
queen) and one acting move available; pushing the acting move reaches
state 1 where Black has exactly one legal move; pushing that reply reaches
state 2, which is checkmate.  No piece is ever attacked, so no unsafe
piece exists before or after the acting move. -/
def mateSacChess : Chess where
  Pos := Fin 3
  pieceAt := fun p s =>
    if (p = 0 ∨ p = 1) ∧ s = 0 then some ⟨true, PieceType.rook⟩ else none
  turn := fun p => if p = 0 then true else if p = 1 then false else true
  legalMoves := fun p => if p = 0 then [mv23] else if p = 1 then [mv01] else []
  attackers := fun _ _ _ => []
  isCheck := fun p => p = 2
  isCheckmate := fun p => p = 2
  givesCheck := fun _ _ => false
  push := fun p _ => if p = 0 then 1 else 2
  pushOk := fun _ _ => true
  removePieceAt := fun p _ => p
  setPieceAt := fun p _ _ => p
  setTurn := fun p _ => p
  moveUci := fun _ => ""

/-- The pre-move state of the forced-mate sacrifice scenario. -/
def mateSacPre : mateSacChess.Pos := (0 : Fin 3)

/-- C5 evaluated on the failing input: the threatened piece is worth less
than a queen, the acting move is legal, after it the opponent is forced
into checkmate on the very next ply, no strictly new qualifying unsafe
piece appears, and both danger-level functions nevertheless return false.
The mate test of the source compares is_checkmate on a board that still
has a legal move, a condition no position satisfies, so the
sacrifice-forcing-mate branch can never fire. -/
theorem C5_mate_branch_eval :
    pieceValue PieceType.rook < pieceValue PieceType.queen
    ∧ mateSacChess.pieceAt mateSacPre 0 = some ⟨true, PieceType.rook⟩
    ∧ mateSacChess.legalMoves mateSacPre = [mv23]
    ∧ mateSacChess.legalMoves (mateSacChess.push mateSacPre mv23) = [mv01]
    ∧ mateSacChess.isCheckmate
        (mateSacChess.push (mateSacChess.push mateSacPre mv23) mv01) = true
    ∧ mateSacChess.isCheckmate (mateSacChess.push mateSacPre mv23) = false
    ∧ move_creates_greater_threat mateSacChess mateSacPre 0 mv23 = false
    ∧ move_leaves_greater_threat mateSacChess mateSacPre 0 mv23 = false := by
  refine ⟨by decide, by decide, by decide, by decide, by decide, by decide,
    by decide, by decide⟩

/-!
State-passing renderings of the analysis entry points, for the
frame-effect claim.  Each function takes the state of the board object the
caller passed in and returns, besides its result, the state of that object
when the function returns: a call on the caller's board threads the state
through, a call on a scratch copy (board.copy(), the pushed temp boards)
acts on a local value; a temp_board.push paired with a temp_board.pop is
state-neutral on the copy.  Result components mirror the same source lines
as the pure definitions above.
-/

/-- State-passing get_attacking_moves: the source applies only the read
operations attackers and piece_at to the caller's board; the battery
search removes pieces from scratch copies. -/
def get_attacking_moves_st (C : Chess) (b : C.Pos) (targetSquare : Fin 64)
    (attackingColor : Bool) (transitive : Bool) : List (Fin 64) × C.Pos :=
  (get_attacking_moves C b targetSquare attackingColor transitive, b)

/-- State-passing get_defending_moves: threads the caller board through
the direct-attackers call; capture simulation runs on scratch copies. -/
def get_defending_moves_st (C : Chess) (b : C.Pos) (targetSquare : Fin 64)
    (defendingColor : Bool) (transitive : Bool := true) : List (Fin 64) × C.Pos :=
  match C.pieceAt b targetSquare with
  | none => ([], b)
  | some piece =>
    let r := get_attacking_moves_st C b targetSquare (!defendingColor) false
    let attackers := r.1
    let b1 := r.2
    if attackers = [] then
      let tempBoard := C.setPieceAt (C.removePieceAt b1 targetSquare) targetSquare
        ⟨!piece.color, piece.ptype⟩
      (C.attackers tempBoard defendingColor targetSquare, b1)
    else
      let step : Option (List (Fin 64)) → Fin 64 → Option (List (Fin 64)) :=
        fun acc attackerSquare =>
          match C.pieceAt b1 attackerSquare with
          | none => acc
          | some attackerPiece =>
            let tempBoard := C.removePieceAt
              (C.setPieceAt (C.removePieceAt b1 targetSquare) targetSquare attackerPiece)
              attackerSquare
            let recapturers := (get_attacking_moves_st C tempBoard targetSquare
              defendingColor transitive).1
            match acc with
            | none => some recapturers
            | some best =>
              if recapturers.length < best.length then some recapturers else acc
      ((attackers.foldl step none).getD [], b1)

/-- State-passing is_piece_safe: threads the caller board through the two
attacker queries and the defender query, then reads piece values. -/
def is_piece_safe_st (C : Chess) (b : C.Pos) (square : Fin 64)
    (playedMove : Option Move := none) : Bool × C.Pos :=
  match C.pieceAt b square with
  | none => (true, b)
  | some piece =>
    let r1 := get_attacking_moves_st C b square (!piece.color) false
    let r2 := get_attacking_moves_st C r1.2 square (!piece.color) true
    let r3 := get_defending_moves_st C r2.2 square piece.color
    let directAttackers := r1.1
    let allAttackers := r2.1
    let defenders := r3.1
    let b3 := r3.2
    let favorableExchange : Bool :=
      optTest playedMove (fun pm =>
        optTest (C.pieceAt b3 pm.toSquare) (fun capturedPiece =>
          piece.ptype = PieceType.rook &&
          pieceValue capturedPiece.ptype = pieceValue PieceType.knight &&
          allAttackers.length = 1 && decide (defenders.length > 0) &&
          decide ((allAttackers.filter (fun a =>
            optTest (C.pieceAt b3 a)
              (fun ap => pieceValue ap.ptype = pieceValue PieceType.knight))).length > 0)))
    let result : Bool :=
      if favorableExchange then true
      else if directAttackers.any (fun attackerSquare =>
          optTest (C.pieceAt b3 attackerSquare)
            (fun ap => pieceValue ap.ptype < pieceValue piece.ptype)) then false
      else if allAttackers.length ≤ defenders.length then true
      else
        let cheapDefense : Bool :=
          if directAttackers ≠ [] then
            optTest ((directAttackers.filterMap
                (fun sq => (C.pieceAt b3 sq).map (fun p => pieceValue p.ptype))).min?)
              (fun lowestAttackerValue =>
                decide (pieceValue piece.ptype < lowestAttackerValue) &&
                defenders.any (fun defSq =>
                  optTest (C.pieceAt b3 defSq)
                    (fun dp => pieceValue dp.ptype < lowestAttackerValue)))
          else false
        if cheapDefense then true
        else if defenders.any (fun defSq =>
            optTest (C.pieceAt b3 defSq) (fun dp => dp.ptype = PieceType.pawn)) then true
        else false
    (result, b3)

/-- Loop body of the state-passing get_unsafe_pieces. -/
def unsafe_st_step (C : Chess) (color : Bool) (playedMove : Option Move)
    (capturedPieceValue : Int) : (List (Fin 64) × C.Pos) → Fin 64 →
    (List (Fin 64) × C.Pos) :=
  fun acc square =>
    match C.pieceAt acc.2 square with
    | none => acc
    | some piece =>
      if piece.color = color ∧ piece.ptype ≠ PieceType.pawn ∧
          piece.ptype ≠ PieceType.king ∧
          pieceValue piece.ptype > capturedPieceValue then
        let rs := is_piece_safe_st C acc.2 square playedMove
        (if rs.1 then acc.1 else acc.1 ++ [square], rs.2)
      else acc

/-- State-passing get_unsafe_pieces: threads the caller board through the
per-square safety checks. -/
def get_unsafe_pieces_st (C : Chess) (b : C.Pos) (color : Bool)
    (playedMove : Option Move := none) : List (Fin 64) × C.Pos :=
  let capturedPieceValue : Int :=
    match playedMove with
    | some pm =>
      match C.pieceAt b pm.toSquare with
      | some capturedPiece => pieceValue capturedPiece.ptype
      | none => 0
    | none => 0
  (List.finRange 64).foldl (unsafe_st_step C color playedMove capturedPieceValue)
    ([], b)

/-- State-passing move_creates_greater_threat: the simulated move is
pushed on a copy; the caller board is threaded through the pre-move
unsafe-piece scan and otherwise only read. -/
def move_creates_greater_threat_st (C : Chess) (b : C.Pos)
    (threatenedSquare : Fin 64) (actingMove : Move) : Bool × C.Pos :=
  match C.pieceAt b threatenedSquare with
  | none => (false, b)
  | some threatenedPiece =>
    if ¬ C.pushOk b actingMove then (false, b)
    else
      let tempBoard := C.push b actingMove
      let actingColor := ! C.turn tempBoard
      let rPrev := get_unsafe_pieces_st C b actingColor
      let previousRelativeThreats := rPrev.1.filter (fun sq =>
        decide (sq ≠ threatenedSquare) &&
        optTest (C.pieceAt rPrev.2 sq)
          (fun p => pieceValue p.ptype ≥ pieceValue threatenedPiece.ptype))
      let rCur := get_unsafe_pieces_st C tempBoard actingColor (some actingMove)
      let currentRelativeThreats := rCur.1.filter (fun sq =>
        decide (sq ≠ threatenedSquare) &&
        optTest (C.pieceAt rCur.2 sq)
          (fun p => pieceValue p.ptype ≥ pieceValue threatenedPiece.ptype))
      let newThreats := currentRelativeThreats.filter
        (fun sq => ¬ sq ∈ previousRelativeThreats)
      let result : Bool :=
        if newThreats ≠ [] then true
        else if decide (pieceValue threatenedPiece.ptype < pieceValue PieceType.queen) &&
            ((C.legalMoves rCur.2).take 1).any (fun _ => C.isCheckmate rCur.2) then true
        else false
      (result, rPrev.2)

/-- State-passing move_leaves_greater_threat: the caller board is only
read; the unsafe-piece scan runs on the pushed copy. -/
def move_leaves_greater_threat_st (C : Chess) (b : C.Pos)
    (threatenedSquare : Fin 64) (actingMove : Move) : Bool × C.Pos :=
  match C.pieceAt b threatenedSquare with
  | none => (false, b)
  | some threatenedPiece =>
    if ¬ C.pushOk b actingMove then (false, b)
    else
      let tempBoard := C.push b actingMove
      let actingColor := ! C.turn tempBoard
      let rCur := get_unsafe_pieces_st C tempBoard actingColor
      let relativeThreats := rCur.1.filter (fun sq =>
        decide (sq ≠ threatenedSquare) &&
        optTest (C.pieceAt rCur.2 sq)
          (fun p => pieceValue p.ptype ≥ pieceValue threatenedPiece.ptype))
      let result : Bool :=
        if relativeThreats ≠ [] then true
        else if decide (pieceValue threatenedPiece.ptype < pieceValue PieceType.queen) &&
            ((C.legalMoves rCur.2).take 1).any (fun _ => C.isCheckmate rCur.2) then true
        else false
      (result, b)

/-- Loop body of the state-passing is_piece_trapped: first component is
whether a safe escape has been found, second the caller board state. -/
def trapped_st_step (C : Chess) (square : Fin 64) (dangerLevels : Bool)
    (tempBoard : C.Pos) : (Bool × C.Pos) → Move → (Bool × C.Pos) :=
  fun acc move =>
    if acc.1 then acc
    else if optTest (C.pieceAt tempBoard move.toSquare)
        (fun p => p.ptype = PieceType.king) then acc
    else
      let rc := if dangerLevels then
          move_creates_greater_threat_st C acc.2 square move
        else (false, acc.2)
      if dangerLevels && rc.1 then (false, rc.2)
      else
        let rs := is_piece_safe_st C (C.push tempBoard move) move.toSquare (some move)
        (rs.1, rc.2)

/-- State-passing is_piece_trapped: the safety check and the danger-level
checks receive the caller board and thread its state; candidate moves are
pushed on a scratch copy and popped back. -/
def is_piece_trapped_st (C : Chess) (b : C.Pos) (square : Fin 64)
    (dangerLevels : Bool := true) : Bool × C.Pos :=
  match C.pieceAt b square with
  | none => (false, b)
  | some piece =>
    let r1 := is_piece_safe_st C b square
    if r1.1 then (false, r1.2)
    else
      let tempBoard := C.setTurn r1.2 piece.color
      let pieceMoves := (C.legalMoves tempBoard).filter
        (fun move => move.fromSquare = square)
      let r2 := pieceMoves.foldl (trapped_st_step C square dangerLevels tempBoard)
        (false, r1.2)
      (!r2.1, r2.2)

/-- State-passing _is_sacrifice_move: the source reads piece_at and turn
on the caller board and simulates on a copy. -/
def _is_sacrifice_move_st (C : Chess) (b : C.Pos) (move : Move) : Bool × C.Pos :=
  (_is_sacrifice_move C b move, b)

/-- State-passing _consider_brilliant_classification: threads the caller
board through the sacrifice test. -/
def _consider_brilliant_classification_st (C : Chess) (b : C.Pos) (move : Move)
    (bestMoveEval currentEval : PyEval) : Bool × C.Pos :=
  if bestMoveEval.isEmpty || currentEval.isEmpty then (false, b)
  else
    let rs := _is_sacrifice_move_st C b move
    if ¬ rs.1 then (false, rs.2)
    else
      let turn := C.turn rs.2
      let bestEvalCp := convert_top_move_to_cp bestMoveEval
      let currentEvalCp := convert_top_move_to_cp currentEval
      let loss := if turn then bestEvalCp - currentEvalCp
        else currentEvalCp - bestEvalCp
      let subjectiveAdvantage := if turn then currentEvalCp else -currentEvalCp
      (decide (loss ≤ BRILLIANT_MAX_LOSS ∧ subjectiveAdvantage ≥ 0), rs.2)

/-- State-passing _consider_great_classification: threads the caller board
through the conditional sacrifice test of the tactical branch. -/
def _consider_great_classification_st (C : Chess) (b : C.Pos) (move : Move)
    (bestMoveEval currentEval : PyEval) (secondBestEval : Option PyEval) :
    Bool × C.Pos :=
  match secondBestEval with
  | none => (false, b)
  | some secondBest =>
    if bestMoveEval.isEmpty || secondBest.isEmpty then (false, b)
    else
      let turn := C.turn b
      let bestEvalCp := convert_top_move_to_cp bestMoveEval
      let currentEvalCp := convert_top_move_to_cp currentEval
      let secondBestCp := convert_top_move_to_cp secondBest
      let loss := if turn then bestEvalCp - currentEvalCp
        else currentEvalCp - bestEvalCp
      let subjectiveAdvantage := if turn then currentEvalCp else -currentEvalCp
      let bestMoveUci := bestMoveEval.moveStr.getD ""
      let badAlternatives : Bool :=
        decide (subjectiveAdvantage ≥ 0 ∧ subjectiveAdvantage < 100 ∧
          (if turn then secondBestCp else -secondBestCp) < ALTERNATIVE_BAD_THRESHOLD)
      if C.moveUci move = bestMoveUci then
        let alternativeGap := if turn then bestEvalCp - secondBestCp
          else secondBestCp - bestEvalCp
        if decide (alternativeGap ≥ GREAT_MOVE_GAP ∧
            subjectiveAdvantage ≥ GREAT_MOVE_ADVANTAGE) then (true, b)
        else (badAlternatives, b)
      else if loss ≤ GREAT_MOVE_LOSS_THRESHOLD then
        if (C.pieceAt b move.toSquare).isSome || C.givesCheck b move then
          (decide (subjectiveAdvantage ≥ GREAT_MOVE_TACTICAL_ADVANTAGE), b)
        else
          let rsac := _is_sacrifice_move_st C b move
          if rsac.1 then
            (decide (subjectiveAdvantage ≥ GREAT_MOVE_TACTICAL_ADVANTAGE), rsac.2)
          else (badAlternatives, rsac.2)
      else (badAlternatives, b)

/-- State-passing _consider_critical_classification: only reads is_check
and turn on the caller board. -/
def _consider_critical_classification_st (C : Chess) (prevEval : PyEval)
    (secondBestEval : Option PyEval) (boardBefore : C.Pos) : Bool × C.Pos :=
  (_consider_critical_classification C prevEval secondBestEval boardBefore,
    boardBefore)

/-- State-passing classify_move: the move is pushed on a copy; the caller
board is threaded through the brilliant, great and critical tests. -/
noncomputable def classify_move_st (C : Chess) (analyzer : C.Pos → PyEval)
    (boardBefore : C.Pos) (move : Move) (topMoves : List PyEval)
    (openingName : Option String := none) : String × C.Pos :=
  let turn := C.turn boardBefore
  if (C.legalMoves boardBefore).length ≤ 1 then
    (classification_map "FORCED", boardBefore)
  else if openingName.getD "" ≠ "" then (classification_map "THEORY", boardBefore)
  else
    let boardAfter := C.push boardBefore move
    if C.isCheckmate boardAfter then (classification_map "BEST", boardBefore)
    else
      let bestMoveEval := topMoves.headD {}
      let secondBestEval := topMoves[1]?
      let currentEval := analyzer boardAfter
      let bestEvalCp := convert_top_move_to_cp bestMoveEval
      let currentEvalCp := convert_top_move_to_cp currentEval
      let bestMoveUci := bestMoveEval.moveStr.getD ""
      let topMovePlayed := C.moveUci move = bestMoveUci
      let classification := if topMovePlayed then classification_map "BEST"
        else _point_loss_classify bestEvalCp currentEvalCp turn
      let rb := _consider_brilliant_classification_st C boardBefore move
        bestMoveEval currentEval
      if rb.1 then (classification_map "BRILLIANT", rb.2)
      else
        let rg := _consider_great_classification_st C rb.2 move bestMoveEval
          currentEval secondBestEval
        if rg.1 then (classification_map "CRITICAL", rg.2)
        else
          let rc := if topMovePlayed then
              _consider_critical_classification_st C bestMoveEval secondBestEval rg.2
            else (false, rg.2)
          if topMovePlayed && rc.1 then (classification_map "CRITICAL", rc.2)
          else (classification, rc.2)

/-- Helper: a fold whose step preserves the second component preserves it
globally. -/
theorem foldl_snd_eq {α β σ : Type} (f : (β × σ) → α → (β × σ))
    (hf : ∀ acc x, (f acc x).2 = acc.2) :
    ∀ (l : List α) (acc : β × σ), (l.foldl f acc).2 = acc.2 := by
  intro l
  induction l with
  | nil => intro acc; rfl
  | cons x xs ih =>
    intro acc
    rw [List.foldl_cons, ih]
    exact hf acc x

/-- Frame lemma for the attacker resolver. -/
theorem get_attacking_moves_st_frame (C : Chess) (b : C.Pos) (t : Fin 64)
    (c tr : Bool) : (get_attacking_moves_st C b t c tr).2 = b := rfl

/-- Frame lemma for the defender resolver. -/
theorem get_defending_moves_st_frame (C : Chess) (b : C.Pos) (t : Fin 64)
    (c tr : Bool) : (get_defending_moves_st C b t c tr).2 = b := by
  unfold get_defending_moves_st
  cases C.pieceAt b t with
  | none => rfl
  | some piece =>
    dsimp only
    split <;> rfl

/-- Frame lemma for the piece-safety evaluator. -/
theorem is_piece_safe_st_frame (C : Chess) (b : C.Pos) (square : Fin 64)
    (playedMove : Option Move) : (is_piece_safe_st C b square playedMove).2 = b := by
  unfold is_piece_safe_st
  cases C.pieceAt b square with
  | none => rfl
  | some piece =>
    dsimp only
    rw [get_defending_moves_st_frame]
    rfl

/-- Frame lemma for the unsafe-piece scan. -/
theorem get_unsafe_pieces_st_frame (C : Chess) (b : C.Pos) (color : Bool)
    (playedMove : Option Move) : (get_unsafe_pieces_st C b color playedMove).2 = b := by
  unfold get_unsafe_pieces_st
  dsimp only
  rw [foldl_snd_eq]
  intro acc square
  unfold unsafe_st_step
  cases C.pieceAt acc.2 square with
  | none => rfl
  | some piece =>
    dsimp only
    split
    · rw [is_piece_safe_st_frame]
    · rfl

/-- Frame lemma for move_creates_greater_threat. -/
theorem move_creates_greater_threat_st_frame (C : Chess) (b : C.Pos)
    (t : Fin 64) (m : Move) : (move_creates_greater_threat_st C b t m).2 = b := by
  unfold move_creates_greater_threat_st
  cases C.pieceAt b t with
  | none => rfl
  | some piece =>
    dsimp only
    split
    · rfl
    · rw [get_unsafe_pieces_st_frame]

/-- Frame lemma for move_leaves_greater_threat. -/
theorem move_leaves_greater_threat_st_frame (C : Chess) (b : C.Pos)
    (t : Fin 64) (m : Move) : (move_leaves_greater_threat_st C b t m).2 = b := by
  unfold move_leaves_greater_threat_st
  cases C.pieceAt b t with
  | none => rfl
  | some piece =>
    dsimp only
    split <;> rfl

/-- Frame lemma for the loop body of the trapped-piece detector. -/
theorem trapped_st_step_frame (C : Chess) (square : Fin 64)
    (dangerLevels : Bool) (tempBoard : C.Pos) (acc : Bool × C.Pos)
    (move : Move) :
    (trapped_st_step C square dangerLevels tempBoard acc move).2 = acc.2 := by
  unfold trapped_st_step
  repeat' split
  all_goals simp [move_creates_greater_threat_st_frame]
  all_goals split <;> rfl

/-- Frame lemma for the trapped-piece detector. -/
theorem is_piece_trapped_st_frame (C : Chess) (b : C.Pos) (square : Fin 64)
    (dangerLevels : Bool) : (is_piece_trapped_st C b square dangerLevels).2 = b := by
  unfold is_piece_trapped_st
  cases C.pieceAt b square with
  | none => rfl
  | some piece =>
    dsimp only
    split
    · rw [is_piece_safe_st_frame]
    · rw [foldl_snd_eq]
      · rw [is_piece_safe_st_frame]
      · intro acc move
        exact trapped_st_step_frame C square dangerLevels _ acc move

/-- Frame lemma for the sacrifice test. -/
theorem _is_sacrifice_move_st_frame (C : Chess) (b : C.Pos) (m : Move) :
    (_is_sacrifice_move_st C b m).2 = b := rfl

/-- Frame lemma for the brilliant test. -/
theorem _consider_brilliant_classification_st_frame (C : Chess) (b : C.Pos)
    (m : Move) (best current : PyEval) :
    (_consider_brilliant_classification_st C b m best current).2 = b := by
  unfold _consider_brilliant_classification_st
  split
  · rfl
  · dsimp only
    split <;> rfl

/-- Frame lemma for the great test. -/
theorem _consider_great_classification_st_frame (C : Chess) (b : C.Pos)
    (m : Move) (best current : PyEval) (second : Option PyEval) :
    (_consider_great_classification_st C b m best current second).2 = b := by
  unfold _consider_great_classification_st
  cases second with
  | none => rfl
  | some secondBest =>
    dsimp only
    repeat' split
    all_goals rfl

/-- Frame lemma for the critical test. -/
theorem _consider_critical_classification_st_frame (C : Chess) (prev : PyEval)
    (second : Option PyEval) (b : C.Pos) :
    (_consider_critical_classification_st C prev second b).2 = b := rfl

/-- Frame lemma for the classifier. -/
theorem classify_move_st_frame (C : Chess) (analyzer : C.Pos → PyEval)
    (b : C.Pos) (move : Move) (topMoves : List PyEval)
    (openingName : Option String) :
    (classify_move_st C analyzer b move topMoves openingName).2 = b := by
  unfold classify_move_st
  dsimp only
  repeat' split
  all_goals simp only [_consider_critical_classification_st_frame,
    _consider_great_classification_st_frame,
    _consider_brilliant_classification_st_frame]

/-- C9: every listed analysis call returns the caller board in the state
it was received: all simulation happens on scratch copies, and no
persistent mutation escapes a single call. -/
theorem C9_frame_thm (C : Chess) (analyzer : C.Pos → PyEval) (b : C.Pos)
    (square : Fin 64) (attackingColor transitive : Bool)
    (playedMove : Option Move) (dangerLevels : Bool) (move : Move)
    (topMoves : List PyEval) (openingName : Option String) :
    (classify_move_st C analyzer b move topMoves openingName).2 = b
    ∧ (is_piece_safe_st C b square playedMove).2 = b
    ∧ (is_piece_trapped_st C b square dangerLevels).2 = b
    ∧ (get_attacking_moves_st C b square attackingColor transitive).2 = b
    ∧ (get_defending_moves_st C b square attackingColor transitive).2 = b
    ∧ (move_creates_greater_threat_st C b square move).2 = b
    ∧ (move_leaves_greater_threat_st C b square move).2 = b :=
  ⟨classify_move_st_frame C analyzer b move topMoves openingName,
   is_piece_safe_st_frame C b square playedMove,
   is_piece_trapped_st_frame C b square dangerLevels,
   get_attacking_moves_st_frame C b square attackingColor transitive,
   get_defending_moves_st_frame C b square attackingColor transitive,
   move_creates_greater_threat_st_frame C b square move,
   move_leaves_greater_threat_st_frame C b square move⟩
